import Mathlib

/-!
Shallow embedding of the hybrid retrieval-and-fusion pipeline of
`src/hybrid_chat.py` (the Hybrid-Knowledge-AI-System repository), together
with spec-modelled definitions for the two pipeline pieces that the
repository tests call but whose implementation is not present in the
sources (`rerank`, `embed_text`).

External collaborators (the OpenAI embedding and chat endpoints, the
Pinecone index, the Neo4j driver sessions) are modelled as fields of an
`Env` record: each field is the pure response function of one external
call, returning `Except String _` so that a provider failure (a raised
exception in Python) is an `Except.error`. Python dictionaries are
association lists of `String × Val`; floating-point scores are modelled
as exact rationals (the claims under study only add and compare scores
at values where rounding plays no role).
-/

namespace HybridChat

/-- Val models a Python scalar value stored in a result dictionary:
a string, a number (modelled as an exact rational), or Python None. -/
inductive Val where
  | str (s : String)
  | num (q : ℚ)
  | vnone
  deriving Repr, DecidableEq

/-- Dict models a Python dict with string keys, as an association list. -/
abbrev Dict := List (String × Val)

/-- dget models Python dict.get(k): the first value bound to k, if any. -/
def dget (d : Dict) (k : String) : Option Val :=
  (d.find? (fun p => p.1 == k)).map (fun p => p.2)

/-- dgetD models Python dict.get(k, default). -/
def dgetD (d : Dict) (k : String) (v : Val) : Val :=
  (dget d k).getD v

/-- truthy models Python truthiness of an optional dict value: a missing
key, None, the empty string and the number 0 are falsy. -/
def truthy : Option Val → Bool
  | Option.none => false
  | some Val.vnone => false
  | some (Val.str s) => !(s == "")
  | some (Val.num q) => !(q == 0)

/-- valStr models Python str() applied to a stored value, as used by the
f-strings of build_context (numeric rendering is abstracted to the
rational literal; the claims never inspect a rendered number). -/
def valStr : Val → String
  | Val.str s => s
  | Val.num q => toString q
  | Val.vnone => "None"

/-- PMatch models one Pinecone match object: id, score, metadata. -/
structure PMatch where
  id : String
  score : ℚ
  metadata : Dict
  deriving Repr, DecidableEq

/-- GraphRec models one record returned by the full-text Cypher query of
neo4j_search (RETURN name, description, type, country, rating, score). -/
structure GraphRec where
  name : Val
  description : Val
  type : Val
  country : Val
  rating : Val
  score : Val
  deriving Repr, DecidableEq

/-- FallbackRec models one record returned by the fallback Cypher query of
neo4j_search (RETURN name, description, type, country, rating). -/
structure FallbackRec where
  name : Val
  description : Val
  type : Val
  country : Val
  rating : Val
  deriving Repr, DecidableEq

/-- CountryRec models one record returned by get_locations_by_country
(RETURN name, description, type, rating). -/
structure CountryRec where
  name : Val
  description : Val
  type : Val
  rating : Val
  deriving Repr, DecidableEq

/-- Env bundles the external collaborators of hybrid_chat.py. Each field
is the response of one external call; Except.error models a raised
exception inside that call. -/
structure Env where
  embed : String → Except String (List ℚ)
  indexQuery : List ℚ → Nat → Option Dict → Except String (List PMatch)
  neo4jPrimary : String → Nat → Except String (List GraphRec)
  neo4jFallback : String → Nat → Except String (List FallbackRec)
  countryQuery : String → Nat → Except String (List CountryRec)
  chat : String → String → Except String String

/-- graphRecDict is the dictionary built for one full-text record in
neo4j_search (the results.append literal of hybrid_chat.py:72-79). -/
def graphRecDict (r : GraphRec) : Dict :=
  [("name", r.name), ("description", r.description), ("type", r.type),
   ("country", r.country), ("rating", r.rating), ("score", r.score)]

/-- fallbackRecDict is dict(record) for one fallback record of
neo4j_search: exactly the keys of the fallback RETURN clause. -/
def fallbackRecDict (r : FallbackRec) : Dict :=
  [("name", r.name), ("description", r.description), ("type", r.type),
   ("country", r.country), ("rating", r.rating)]

/-- countryRecDict is dict(record) for one get_locations_by_country
record: exactly the keys of its RETURN clause. -/
def countryRecDict (r : CountryRec) : Dict :=
  [("name", r.name), ("description", r.description), ("type", r.type),
   ("rating", r.rating)]

/-- neo4j_search of hybrid_chat.py:51-97: try the full-text query; on any
exception fall back to the CONTAINS pattern query. The fallback query is
outside the except-protected region, so its failure propagates. -/
def neo4j_search (env : Env) (query : String) (limit : Nat) :
    Except String (List Dict) :=
  match env.neo4jPrimary query limit with
  | Except.ok recs => Except.ok (recs.map graphRecDict)
  | Except.error _e =>
      (env.neo4jFallback query limit).map (fun rs => rs.map fallbackRecDict)

/-- get_locations_by_country of hybrid_chat.py:99-112 (no exception
handling: a session failure propagates to the caller). -/
def get_locations_by_country (env : Env) (country : String) (limit : Nat) :
    Except String (List Dict) :=
  (env.countryQuery country limit).map (fun rs => rs.map countryRecDict)

/-- normFilter models the `if filters:` guard of pinecone_search: the
filter is attached to the query only when the dict is truthy (non-empty). -/
def normFilter : Option Dict → Option Dict
  | Option.none => Option.none
  | some d => if d.isEmpty then Option.none else some d

/-- pineconeMatchDict is the dictionary built for one Pinecone match in
pinecone_search (the results.append literal of hybrid_chat.py:136-142). -/
def pineconeMatchDict (m : PMatch) : Dict :=
  [("id", Val.str m.id), ("score", Val.num m.score),
   ("text", dgetD m.metadata "full_chunk" (dgetD m.metadata "chunk_text" (Val.str ""))),
   ("source", dgetD m.metadata "source" (Val.str "")),
   ("title", dgetD m.metadata "title" (Val.str ""))]

/-- pinecone_search of hybrid_chat.py:114-148: embed the query, run the
index query, build result dictionaries; one try/except wraps everything
and turns ANY exception into the empty list. -/
def pinecone_search (env : Env) (query : String) (k : Nat)
    (filters : Option Dict) : List Dict :=
  match env.embed query with
  | Except.error _e => []
  | Except.ok emb =>
      match env.indexQuery emb k (normFilter filters) with
      | Except.error _e => []
      | Except.ok ms => ms.map pineconeMatchDict

/-- queryLower models query.lower() (ASCII case folding, which is what
all keywords and test inputs exercise). -/
def queryLower (q : String) : String :=
  String.mk (q.toList.map Char.toLower)

/-- isSubstrL decides whether the needle occurs contiguously in the
haystack, the semantics of the Python `in` operator on strings. -/
def isSubstrL (needle : List Char) : List Char → Bool
  | [] => needle.isEmpty
  | c :: rest => (needle.isPrefixOf (c :: rest)) || isSubstrL needle rest

/-- hasKw models `any(word in query_lower for word in words)`. -/
def hasKw (words : List String) (ql : String) : Bool :=
  words.any (fun w => isSubstrL w.toList ql.toList)

/-- itineraryKeywords of determine_query_type. -/
def itineraryKeywords : List String :=
  ["itinerary", "trip", "plan", "days", "visit", "travel to"]

/-- recommendationKeywords of determine_query_type. -/
def recommendationKeywords : List String :=
  ["where", "find", "recommend", "best", "top"]

/-- factualKeywords of determine_query_type. -/
def factualKeywords : List String :=
  ["what", "who", "when", "how", "why"]

/-- determine_query_type of hybrid_chat.py:150-166: lower-case the query,
test the three keyword lists in order, first hit wins, default general. -/
def determine_query_type (query : String) : String :=
  let ql := queryLower query
  if hasKw itineraryKeywords ql then "itinerary"
  else if hasKw recommendationKeywords ql then "recommendation"
  else if hasKw factualKeywords ql then "factual"
  else "general"

/-- isWs decides membership in the Python regex class backslash-s
(ASCII whitespace). -/
def isWs (c : Char) : Bool :=
  c == ' ' || c == '\t' || c == '\n' || c == '\r' || c == '\x0c' || c == '\x0b'

/-- isWordCh decides membership in the Python regex word class
(letters, digits, underscore), used for the word boundary of the
capitalized-word pattern of extract_entities. -/
def isWordCh (c : Char) : Bool :=
  c.isAlpha || c.isDigit || c == '_'

/-- headIsWord is true when the remaining input starts with a word
character (so a word boundary placed here would fail). -/
def headIsWord : List Char → Bool
  | [] => false
  | c :: _ => isWordCh c

/-- segsAux greedily collects further capitalized segments of the
extract_entities pattern: each segment is a whitespace run, an uppercase
letter and a nonempty lowercase run. Returns the kept segments (with
their leading whitespace) and the remaining input. -/
def segsAux : Nat → List Char → List (List Char) × List Char
  | 0, cs => ([], cs)
  | Nat.succ fuel, cs =>
      let p := cs.span isWs
      if p.1.isEmpty then ([], cs)
      else
        match p.2 with
        | [] => ([], cs)
        | c :: r2 =>
            if c.isUpper then
              let q := r2.span Char.isLower
              if q.1.isEmpty then ([], cs)
              else
                let rest := segsAux fuel q.2
                ((p.1 ++ c :: q.1) :: rest.1, rest.2)
            else ([], cs)

/-- tryCapMatch attempts the regex of extract_entities at an uppercase
letter c followed by rest: a nonempty lowercase run, then greedily
repeated whitespace-plus-capitalized segments; the trailing word
boundary drops at most the final segment (its restored characters begin
with whitespace, so the boundary then holds). Returns the matched
characters and the remaining input. -/
def tryCapMatch (c : Char) (rest : List Char) :
    Option (List Char × List Char) :=
  let p := rest.span Char.isLower
  if p.1.isEmpty then Option.none
  else
    let segs := segsAux p.2.length p.2
    match segs.1.reverse with
    | [] =>
        if headIsWord p.2 then Option.none
        else some (c :: p.1, p.2)
    | lastSeg :: revInit =>
        if headIsWord segs.2 then
          some (c :: p.1 ++ revInit.reverse.flatten, lastSeg ++ segs.2)
        else
          some (c :: p.1 ++ segs.1.flatten, segs.2)

/-- boundaryBefore is the word boundary test before a candidate match:
start of string, or a preceding non-word character. -/
def boundaryBefore : Option Char → Bool
  | Option.none => true
  | some p => !(isWordCh p)

/-- findCapAux scans left to right for non-overlapping leftmost matches
of the capitalized-word pattern, as re.findall does. -/
def findCapAux : Nat → Option Char → List Char → List String
  | 0, _, _ => []
  | _, _, [] => []
  | Nat.succ fuel, prev, c :: rest =>
      if c.isUpper && boundaryBefore prev then
        match tryCapMatch c rest with
        | some m => String.mk m.1 :: findCapAux fuel (some (m.1.getLastD c)) m.2
        | Option.none => findCapAux fuel (some c) rest
      else findCapAux fuel (some c) rest

/-- findCapitalized models re.findall of the extract_entities pattern
(a word-bounded capitalized word, optionally continued by further
whitespace-separated capitalized words). -/
def findCapitalized (s : String) : List String :=
  findCapAux s.toList.length Option.none s.toList

/-- Entities is the dictionary built by extract_entities. -/
structure Entities where
  countries : List String
  cities : List String
  types : List String
  keywords : List String
  deriving Repr, DecidableEq

/-- locationTypes of extract_entities. -/
def locationTypes : List String :=
  ["restaurant", "hotel", "museum", "beach", "park", "temple",
   "market", "cafe", "bar", "landmark", "attraction", "monument"]

/-- extract_entities of hybrid_chat.py:23-49: location types found as
substrings of the lowered query, and capitalized words found by the
regex; countries and cities are never filled in. -/
def extract_entities (query : String) : Entities :=
  let ql := queryLower query
  { countries := [], cities := [],
    types := locationTypes.filter (fun t => isSubstrL t.toList ql.toList),
    keywords := findCapitalized query }

/-- renderNeoItem renders one knowledge-graph entry of build_context
(hybrid_chat.py:176-185). -/
def renderNeoItem (i : Nat) (r : Dict) : String :=
  let s0 := toString i ++ ". " ++ valStr (dgetD r "name" (Val.str "Unknown"))
  let s1 := if truthy (dget r "type")
    then s0 ++ " (" ++ valStr (dgetD r "type" Val.vnone) ++ ")" else s0
  let s2 := if truthy (dget r "country")
    then s1 ++ " in " ++ valStr (dgetD r "country" Val.vnone) else s1
  let s3 := if truthy (dget r "description")
    then s2 ++ "\n   Description: " ++ valStr (dgetD r "description" Val.vnone) else s2
  if truthy (dget r "rating")
    then s3 ++ "\n   Rating: " ++ valStr (dgetD r "rating" Val.vnone) ++ "/5" else s3

/-- strTake models Python string slicing s[:n]. -/
def strTake (n : Nat) (s : String) : String :=
  String.mk (s.toList.take n)

/-- renderPineItem renders one travel-guide entry of build_context
(hybrid_chat.py:190-192). -/
def renderPineItem (i : Nat) (r : Dict) : String :=
  toString i ++ ". From " ++ valStr (dgetD r "title" (Val.str "Travel Guide")) ++
    ":\n   " ++ strTake 500 (valStr (dgetD r "text" (Val.str ""))) ++ "..."

/-- enumFrom1 models Python enumerate(xs, 1). -/
def enumFrom1 {α : Type} (xs : List α) : List (Nat × α) :=
  xs.enum.map (fun p => (p.1 + 1, p.2))

/-- build_context of hybrid_chat.py:168-194: a knowledge-graph section
for the first five graph rows (only when there are any), a travel
information section for the first three vector rows (only when there are
any), joined by blank lines. -/
def build_context (query : String) (neo4j_results pinecone_results : List Dict) :
    String :=
  let _ := query
  let neoParts : List String :=
    if neo4j_results.isEmpty then []
    else "=== Locations from Knowledge Graph ===" ::
      (enumFrom1 (neo4j_results.take 5)).map (fun p => renderNeoItem p.1 p.2)
  let pineParts : List String :=
    if pinecone_results.isEmpty then []
    else "\n=== Detailed Travel Information ===" ::
      (enumFrom1 (pinecone_results.take 3)).map (fun p => renderPineItem p.1 p.2)
  String.intercalate "\n\n" (neoParts ++ pineParts)

/-- generalSystemPrompt of generate_answer. -/
def generalSystemPrompt : String :=
  "You are a helpful travel assistant. Provide informative, friendly responses \n        that help users plan their travels."

/-- system_prompts of generate_answer (hybrid_chat.py:199-211). -/
def system_prompts : List (String × String) :=
  [("itinerary", "You are an expert travel planner. Create detailed, day-by-day itineraries \n        that include specific locations, activities, timing, and practical tips. Be specific and organized."),
   ("recommendation", "You are a knowledgeable travel advisor. Provide specific recommendations \n        with clear reasoning, considering factors like ratings, location type, and traveler preferences."),
   ("factual", "You are a travel information specialist. Provide accurate, concise answers \n        based on the available information. If information is uncertain, say so."),
   ("general", generalSystemPrompt)]

/-- userPromptFor is the user prompt assembled by generate_answer
(hybrid_chat.py:215-225). -/
def userPromptFor (query context : String) : String :=
  "Based on the following information, answer this question: " ++ query ++
  "\n\n" ++ context ++
  "\n\nInstructions:\n- Be specific and use information from both the locations database and travel guides\n- If creating an itinerary, organize by days and include timing\n- Mention specific location names, types, and ratings when relevant\n- If information is limited, acknowledge it and provide best available guidance\n- Keep the response well-structured and easy to follow\n"

/-- systemPromptFor is system_prompts.get(query_type, general). -/
def systemPromptFor (query_type : String) : String :=
  (((system_prompts.find? (fun p => p.1 == query_type)).map (fun p => p.2)).getD
    generalSystemPrompt)

/-- generate_answer of hybrid_chat.py:196-241: select the system prompt
by query type, call the chat provider; a provider failure is caught and
converted into the string "Error generating response: ..." returned as a
normal answer. -/
def generate_answer (env : Env) (query context query_type : String) : String :=
  match env.chat (systemPromptFor query_type) (userPromptFor query context) with
  | Except.ok content => content
  | Except.error e => "Error generating response: " ++ e

/-- itineraryExtension is the keyword loop of answer
(hybrid_chat.py:264-269): per capitalized keyword, fetch that country
and extend the graph results when the lookup is non-empty; a session
failure propagates. -/
def itineraryExtension (env : Env) (keywords : List String) :
    Except String (List Dict) :=
  keywords.foldlM
    (fun acc kw => do
      let cl ← get_locations_by_country env kw 15
      pure (if cl.isEmpty then acc else acc ++ cl))
    []

/-- gatherGraph is the graph-side evidence assembled by answer: the
neo4j_search results for the raw query string, extended for itinerary
queries by per-keyword country lookups. -/
def gatherGraph (env : Env) (query : String) (query_type : String) :
    Except String (List Dict) := do
  let neo4j_results ← neo4j_search env query 10
  let entities := extract_entities query
  if query_type == "itinerary" && !entities.keywords.isEmpty then
    let extra ← itineraryExtension env entities.keywords
    pure (neo4j_results ++ extra)
  else
    pure neo4j_results

/-- answer of hybrid_chat.py:243-277: classify, search both sources,
optionally extend by country lookups, build the context, generate, and
return the bare generated string (verbose only prints). -/
def answer (env : Env) (query : String) (verbose : Bool) :
    Except String String := do
  let _ := verbose
  let query_type := determine_query_type query
  let pinecone_results := pinecone_search env query 5 Option.none
  let neo4j_results ← gatherGraph env query query_type
  pure (generate_answer env query
    (build_context query neo4j_results pinecone_results) query_type)

/-- PyVal models a dynamically typed Python value handed to
determine_query_type by a caller (the function is annotated `query: str`
but Python does not enforce the annotation). -/
inductive PyVal where
  | str (s : String)
  | int (n : Int)
  | pynone
  deriving Repr, DecidableEq

/-- isStrVal is true exactly on string values. -/
def isStrVal : PyVal → Bool
  | PyVal.str _ => true
  | _ => false

/-- determine_query_type_py models calling determine_query_type on a
dynamic value: query.lower() on a non-string raises AttributeError. -/
def determine_query_type_py : PyVal → Except String String
  | PyVal.str s => Except.ok (determine_query_type s)
  | _ => Except.error "AttributeError: object has no attribute lower"

/-- hitsItinerary is the first keyword test of determine_query_type. -/
def hitsItinerary (q : String) : Bool :=
  hasKw itineraryKeywords (queryLower q)

/-- hitsRecommendation is the second keyword test of determine_query_type. -/
def hitsRecommendation (q : String) : Bool :=
  hasKw recommendationKeywords (queryLower q)

/-- hitsFactual is the third keyword test of determine_query_type. -/
def hitsFactual (q : String) : Bool :=
  hasKw factualKeywords (queryLower q)

/-- retrievalFails states that the vector retrieval step of a request
fails: the embedding call errors, or the index query errors. -/
def retrievalFails (env : Env) (q : String) (k : Nat) : Prop :=
  (∃ e, env.embed q = Except.error e) ∨
  (∃ v e, env.embed q = Except.ok v ∧
    env.indexQuery v k Option.none = Except.error e)

/-- Cache is the content-addressed embedding cache, mapping fingerprints
to vectors (spec section 4.1). -/
abbrev Cache := List (String × List ℚ)

/-- cacheGet is the cache lookup, first binding wins (so an overwrite by
cachePut shadows the old entry: last write wins). -/
def cacheGet (c : Cache) (k : String) : Option (List ℚ) :=
  (c.find? (fun p => p.1 == k)).map (fun p => p.2)

/-- cachePut stores a vector under a fingerprint. -/
def cachePut (c : Cache) (k : String) (v : List ℚ) : Cache :=
  (k, v) :: c

/-- Modelled from the spec: the fingerprint is a deterministic hash of
the exact input text (section 4.1); the hash itself is absent from src/,
so it is modelled as the identity on the text, which preserves the
determinism and the injectivity on texts that the spec relies on. -/
def fingerprint (text : String) : String := text

/-- Modelled from the spec: embed_text (the Embedder of spec sections
4.1-4.2) is called by src/test/test_embeddings.py but its implementation
is absent from src/. On cache hit return the cached vector; on miss call
the external provider, store the result keyed by fingerprint, return it.
The result also carries the updated cache and the number of external
provider calls performed by this invocation. -/
def embed_text (provider : String → Except String (List ℚ)) (cache : Cache)
    (text : String) : Except String (List ℚ × Cache × Nat) :=
  match cacheGet cache (fingerprint text) with
  | some v => Except.ok (v, cache, 0)
  | Option.none =>
      match provider text with
      | Except.error e => Except.error e
      | Except.ok v => Except.ok (v, cachePut cache (fingerprint text) v, 1)

/-- Match is a vector-index match as consumed by the reranker (spec
section 3 and the dictionaries of src/test/test_reranker.py). -/
structure Match where
  id : String
  score : ℚ
  metadata : Dict
  deriving Repr, DecidableEq

/-- Fact is one graph-enrichment fact as consumed by the reranker (the
concrete scenario of spec section 8: source, id, relation, name). -/
structure Fact where
  source : String
  id : String
  relation : String
  name : String
  deriving Repr, DecidableEq

/-- RankedResult is a Match plus its fused score (spec section 3). -/
structure RankedResult where
  id : String
  score : ℚ
  metadata : Dict
  fused_score : ℚ
  deriving Repr, DecidableEq

/-- BOOST is the fixed additive reranker boost (spec section 4.6). -/
def BOOST : ℚ := 0.15

/-- factIds collects the ids appearing in the fact list (spec section
4.6: the set of ids that appear as Fact.id). -/
def factIds (facts : List Fact) : List String :=
  facts.map (fun f => f.id)

/-- fuseOne computes the fused score of one match: score + BOOST when
the match id occurs among the fact ids, else the score unchanged. -/
def fuseOne (ids : List String) (m : Match) : RankedResult :=
  if ids.contains m.id then
    { id := m.id, score := m.score, metadata := m.metadata,
      fused_score := m.score + BOOST }
  else
    { id := m.id, score := m.score, metadata := m.metadata,
      fused_score := m.score }

/-- insertByFused inserts into a descending-by-fused-score list, placing
the new element before the first element it ties with or exceeds (the
new element comes earlier in the input, so ties keep input order). -/
def insertByFused (r : RankedResult) : List RankedResult → List RankedResult
  | [] => [r]
  | x :: xs =>
      if x.fused_score ≤ r.fused_score then r :: x :: xs
      else x :: insertByFused r xs

/-- sortByFused is a stable insertion sort, descending by fused score. -/
def sortByFused : List RankedResult → List RankedResult
  | [] => []
  | x :: xs => insertByFused x (sortByFused xs)

/-- fusedGE is the descending order on fused scores. -/
def fusedGE (a b : RankedResult) : Prop :=
  b.fused_score ≤ a.fused_score

/-- Modelled from the spec: rerank (spec section 4.6) is called by
src/test/test_reranker.py but its implementation is absent from src/.
Fuse the graph-presence signal into each match score by the fixed
additive BOOST, then sort descending by fused score, stably. -/
def rerank (ms : List Match) (facts : List Fact) : List RankedResult :=
  sortByFused (ms.map (fuseOne (factIds facts)))

/-- constProvider is a deterministic embedding provider used by concrete
instantiations of the cache theorems. -/
def constProvider : String → Except String (List ℚ) :=
  fun _ => Except.ok [1, 2, 3]

/-- okGraphRec is a concrete full-text graph record. -/
def okGraphRec : GraphRec :=
  { name := Val.str "Hanoi Temple", description := Val.str "Old temple",
    type := Val.str "temple", country := Val.str "Vietnam",
    rating := Val.num (9/2), score := Val.num (12/10) }

/-- fb1 is a concrete fallback graph record. -/
def fb1 : FallbackRec :=
  { name := Val.str "Cafe X", description := Val.str "d",
    type := Val.str "cafe", country := Val.str "Vietnam",
    rating := Val.num 4 }

/-- m1 is a concrete Pinecone match. -/
def m1 : PMatch :=
  { id := "m1", score := 9/10,
    metadata := [("title", Val.str "Guide"),
                 ("chunk_text", Val.str "text about Hanoi")] }

/-- envBase is a concrete environment where every provider succeeds: the
index is empty, the graph is empty, and the chat provider answers with
the fixed string ANSWER. -/
def envBase : Env :=
  { embed := fun _ => Except.ok [1, 0, 0],
    indexQuery := fun _ _ _ => Except.ok [],
    neo4jPrimary := fun _ _ => Except.ok [],
    neo4jFallback := fun _ _ => Except.ok [],
    countryQuery := fun _ _ => Except.ok [],
    chat := fun _ _ => Except.ok "ANSWER" }

/-- envGenFail is envBase with a failing generation provider. -/
def envGenFail : Env :=
  { envBase with chat := fun _ _ => Except.error "boom" }

/-- envRetrFail is envBase with a failing embedding provider (so vector
retrieval fails), a graph store holding one record, and a chat provider
answering with a fixed non-empty string. -/
def envRetrFail : Env :=
  { envBase with
    embed := fun _ => Except.error "offline",
    neo4jPrimary := fun _ _ => Except.ok [okGraphRec],
    chat := fun _ _ => Except.ok "Graph-based answer" }

/-- envWithMatch is envBase with one vector match in the index. -/
def envWithMatch : Env :=
  { envBase with indexQuery := fun _ _ _ => Except.ok [m1] }

/-- envC8 is envBase with a failing full-text graph query and one
fallback record. -/
def envC8 : Env :=
  { envBase with
    neo4jPrimary := fun _ _ => Except.error "no such index",
    neo4jFallback := fun _ _ => Except.ok [fb1] }

theorem mem_insertByFused {x r : RankedResult} {l : List RankedResult} :
    x ∈ insertByFused r l ↔ x = r ∨ x ∈ l := by
  induction l with
  | nil => simp [insertByFused]
  | cons y ys ih =>
      by_cases h : y.fused_score ≤ r.fused_score
      · simp [insertByFused, h]
      · simp only [insertByFused, if_neg h, List.mem_cons, ih]
        tauto

theorem mem_sortByFused {x : RankedResult} {l : List RankedResult} :
    x ∈ sortByFused l ↔ x ∈ l := by
  induction l with
  | nil => simp [sortByFused]
  | cons y ys ih => simp [sortByFused, mem_insertByFused, ih]

theorem chain_insertByFused (r : RankedResult) (l : List RankedResult)
    (h : List.Chain' fusedGE l) : List.Chain' fusedGE (insertByFused r l) := by
  induction l with
  | nil => simp [insertByFused]
  | cons y ys ih =>
      rw [show insertByFused r (y :: ys) =
        (if y.fused_score ≤ r.fused_score then r :: y :: ys
         else y :: insertByFused r ys) from rfl]
      by_cases hc : y.fused_score ≤ r.fused_score
      · rw [if_pos hc]
        exact List.chain'_cons.mpr ⟨hc, h⟩
      · rw [if_neg hc]
        refine List.chain'_cons'.mpr ⟨?_, ih h.tail⟩
        intro b hb
        cases ys with
        | nil =>
            simp [insertByFused] at hb
            subst hb
            exact le_of_lt (lt_of_not_le hc)
        | cons z zs =>
            rw [show insertByFused r (z :: zs) =
              (if z.fused_score ≤ r.fused_score then r :: z :: zs
               else z :: insertByFused r zs) from rfl] at hb
            by_cases hz : z.fused_score ≤ r.fused_score
            · rw [if_pos hz] at hb
              simp at hb
              subst hb
              exact le_of_lt (lt_of_not_le hc)
            · rw [if_neg hz] at hb
              simp at hb
              subst hb
              exact (List.chain'_cons.mp h).1

theorem chain_sortByFused (l : List RankedResult) :
    List.Chain' fusedGE (sortByFused l) := by
  induction l with
  | nil => simp [sortByFused]
  | cons y ys ih => exact chain_insertByFused y (sortByFused ys) ih

theorem cacheGet_cachePut (c : Cache) (k : String) (v : List ℚ) :
    cacheGet (cachePut c k v) k = some v := by
  simp [cacheGet, cachePut, List.find?]

/-- C3: embedding the same text twice returns bit-identical vectors, and
the second call performs zero calls to the external embedding provider,
because the result for the fingerprint of the text is served from the
content-addressed cache populated (or already holding it) on the first
call; the cache is unchanged by the second call. -/
theorem embed_text_cache_determinism (provider : String → Except String (List ℚ))
    (cache : Cache) (text : String) (v : List ℚ) (c : Cache) (n : Nat)
    (h : embed_text provider cache text = Except.ok (v, c, n)) :
    embed_text provider c text = Except.ok (v, c, 0) := by
  unfold embed_text at h ⊢
  cases hget : cacheGet cache (fingerprint text) with
  | some w =>
      rw [hget] at h
      cases h
      rw [hget]
  | none =>
      rw [hget] at h
      cases hp : provider text with
      | error e => rw [hp] at h; cases h
      | ok w =>
          rw [hp] at h
          cases h
          rw [cacheGet_cachePut]

/-- Witness for C3: a concrete first call a cache miss (one provider
call), after which the second call is a cache hit returning the same
vector with zero provider calls. -/
theorem embed_text_cache_determinism_witness :
    embed_text constProvider [] "hello" =
      Except.ok ([1, 2, 3], [("hello", [1, 2, 3])], 1) ∧
    embed_text constProvider [("hello", [1, 2, 3])] "hello" =
      Except.ok ([1, 2, 3], [("hello", [1, 2, 3])], 0) :=
  ⟨rfl, embed_text_cache_determinism constProvider [] "hello"
    [1, 2, 3] [("hello", [1, 2, 3])] 1 rfl⟩

/-- C4: every reranked match whose id appears among the fact ids has
fused_score = score + BOOST (hence at least its original score), every
other match keeps fused_score = score, the output is ordered descending
by fused_score, and the concrete scenario [a:0.30, b:0.20] with one fact
of id b and BOOST = 0.15 reranks to [b(0.35), a(0.30)]. -/
theorem rerank_boost_and_order (ms : List Match) (facts : List Fact)
    (r : RankedResult) (hr : r ∈ rerank ms facts) :
    ((factIds facts).contains r.id = true →
      r.fused_score = r.score + BOOST ∧ r.score ≤ r.fused_score) ∧
    ((factIds facts).contains r.id = false → r.fused_score = r.score) ∧
    List.Chain' fusedGE (rerank ms facts) ∧
    rerank [⟨"a", 0.3, []⟩, ⟨"b", 0.2, []⟩] [⟨"x", "b", "NEAR", "B"⟩] =
      [⟨"b", 0.2, [], 0.35⟩, ⟨"a", 0.3, [], 0.3⟩] := by
  have hmem : r ∈ ms.map (fuseOne (factIds facts)) := by
    rw [rerank] at hr
    exact mem_sortByFused.mp hr
  rcases List.mem_map.mp hmem with ⟨m, _hm, hfm⟩
  have hBOOST : (0 : ℚ) ≤ BOOST := by norm_num [BOOST]
  refine ⟨?_, ?_, ?_, ?_⟩
  · intro hid
    by_cases hc : (factIds facts).contains m.id
    · rw [fuseOne, if_pos hc] at hfm
      subst hfm
      constructor
      · rfl
      · simpa using hBOOST
    · rw [fuseOne, if_neg hc] at hfm
      subst hfm
      simp only at hid
      exact absurd hid (by simpa using hc)
  · intro hid
    by_cases hc : (factIds facts).contains m.id
    · rw [fuseOne, if_pos hc] at hfm
      subst hfm
      simp only at hid
      exact absurd hid (by simpa using hc)
    · rw [fuseOne, if_neg hc] at hfm
      subst hfm
      rfl
  · rw [rerank]
    exact chain_sortByFused _
  · simp +decide [rerank, sortByFused, insertByFused, fuseOne, factIds, BOOST]
    norm_num

/-- Witness for C4: in the concrete scenario the boosted match b is in
the output with fused_score = 0.20 + BOOST = 0.35. -/
theorem rerank_boost_and_order_witness :
    (factIds [⟨"x", "b", "NEAR", "B"⟩]).contains "b" = true ∧
    (0.35 : ℚ) = 0.2 + BOOST ∧
    rerank [⟨"a", 0.3, []⟩, ⟨"b", 0.2, []⟩] [⟨"x", "b", "NEAR", "B"⟩] =
      [⟨"b", 0.2, [], 0.35⟩, ⟨"a", 0.3, [], 0.3⟩] := by
  have hx : rerank [⟨"a", 0.3, []⟩, ⟨"b", 0.2, []⟩] [⟨"x", "b", "NEAR", "B"⟩] =
      [⟨"b", 0.2, [], 0.35⟩, ⟨"a", 0.3, [], 0.3⟩] := by
    simp +decide [rerank, sortByFused, insertByFused, fuseOne, factIds, BOOST]
    norm_num
  have h := rerank_boost_and_order [⟨"a", 0.3, []⟩, ⟨"b", 0.2, []⟩]
    [⟨"x", "b", "NEAR", "B"⟩] ⟨"b", 0.2, [], 0.35⟩ (by rw [hx]; simp)
  exact ⟨by decide, by simpa using (h.1 (by decide)).1, h.2.2.2⟩

/-- C5: intent classification lower-cases the query and tests the three
keyword lists in a fixed priority order (itinerary before recommendation
before factual, first match wins, no match gives general), and the four
concrete example queries classify as the spec states. -/
theorem determine_query_type_priority (q : String) :
    (determine_query_type q = "itinerary" ↔ hitsItinerary q = true) ∧
    (determine_query_type q = "recommendation" ↔
      (hitsItinerary q = false ∧ hitsRecommendation q = true)) ∧
    (determine_query_type q = "factual" ↔
      (hitsItinerary q = false ∧ hitsRecommendation q = false ∧
       hitsFactual q = true)) ∧
    (determine_query_type q = "general" ↔
      (hitsItinerary q = false ∧ hitsRecommendation q = false ∧
       hitsFactual q = false)) ∧
    determine_query_type "plan a 4 day trip" = "itinerary" ∧
    determine_query_type "best pho in Hanoi" = "recommendation" ∧
    determine_query_type "what is pho" = "factual" ∧
    determine_query_type "hello" = "general" := by
  have e : determine_query_type q =
      (if hitsItinerary q then "itinerary"
       else if hitsRecommendation q then "recommendation"
       else if hitsFactual q then "factual"
       else "general") := rfl
  refine ⟨?_, ?_, ?_, ?_, by decide, by decide, by decide, by decide⟩ <;>
    (cases h1 : hitsItinerary q <;> cases h2 : hitsRecommendation q <;>
      cases h3 : hitsFactual q <;> simp [e, h1, h2, h3])

/-- Counterexample for C9: the claim that every non-string input is
treated as general is false on the code: determine_query_type calls
query.lower(), so an integer input raises AttributeError instead of
returning general. -/
theorem nonstring_query_raises :
    determine_query_type_py (PyVal.int 3) ≠ Except.ok "general" ∧
    determine_query_type_py (PyVal.int 3) =
      Except.error "AttributeError: object has no attribute lower" :=
  ⟨by simp [determine_query_type_py], rfl⟩

/-- C9 amended: intent classification is total on strings, always
returning one of the four intents without raising; a non-string input
raises AttributeError from the query.lower() call rather than being
treated as general. -/
theorem classifier_total_on_strings (s : String) (v : PyVal)
    (hv : isStrVal v = false) :
    determine_query_type_py (PyVal.str s) =
      Except.ok (determine_query_type s) ∧
    (determine_query_type s = "itinerary" ∨
     determine_query_type s = "recommendation" ∨
     determine_query_type s = "factual" ∨
     determine_query_type s = "general") ∧
    (∃ e, determine_query_type_py v = Except.error e) := by
  refine ⟨rfl, ?_, ?_⟩
  · have e : determine_query_type s =
        (if hitsItinerary s then "itinerary"
         else if hitsRecommendation s then "recommendation"
         else if hitsFactual s then "factual"
         else "general") := rfl
    cases h1 : hitsItinerary s <;> cases h2 : hitsRecommendation s <;>
      cases h3 : hitsFactual s <;> simp [e, h1, h2, h3]
  · cases v with
    | str t => simp [isStrVal] at hv
    | int n => exact ⟨_, rfl⟩
    | pynone => exact ⟨_, rfl⟩

/-- Witness for C9 amended: instantiated at the string hello and the
integer 3. -/
theorem classifier_total_on_strings_witness :
    isStrVal (PyVal.int 3) = false ∧
    (∃ e, determine_query_type_py (PyVal.int 3) = Except.error e) :=
  ⟨by decide,
   (classifier_total_on_strings "hello" (PyVal.int 3) (by decide)).2.2⟩

/-- C10: pinecone_search never raises: an error from the embedding call
or from the vector-index query yields the empty list, exactly as an
empty index does, so callers cannot distinguish a provider failure from
an empty index by the return value alone. -/
theorem pinecone_search_swallows_errors (env : Env) (q : String) (k : Nat)
    (f : Option Dict) :
    (∀ e, env.embed q = Except.error e → pinecone_search env q k f = []) ∧
    (∀ v e, env.embed q = Except.ok v →
      env.indexQuery v k (normFilter f) = Except.error e →
      pinecone_search env q k f = []) ∧
    (∀ v, env.embed q = Except.ok v →
      env.indexQuery v k (normFilter f) = Except.ok [] →
      pinecone_search env q k f = []) := by
  refine ⟨?_, ?_, ?_⟩
  · intro e he
    simp [pinecone_search, he]
  · intro v e hv he
    simp [pinecone_search, hv, he]
  · intro v hv hq
    simp [pinecone_search, hv, hq]

/-- Counterexample for C1: the claim that a generation failure surfaces
as a user-visible failure is false on the code: with a chat provider
that raises, answer still returns successfully (Except.ok), its payload
being the string built by the except-branch of generate_answer, which a
caller cannot distinguish from a generated answer by shape. -/
theorem generation_failure_not_surfaced :
    envGenFail.chat (systemPromptFor "general")
      (userPromptFor "hello" (build_context "hello" [] [])) =
      Except.error "boom" ∧
    answer envGenFail "hello" false =
      Except.ok ("Error generating response: boom") :=
  ⟨rfl, rfl⟩

/-- C1 amended: when the external generation call fails, answer returns
successfully with the string "Error generating response: " followed by
the failure reason; the failure is visible only inside the answer text,
never as a raised error or structured failure. -/
theorem generation_failure_returns_error_string (env : Env) (q : String)
    (vb : Bool) (nres : List Dict) (e : String)
    (hgraph : gatherGraph env q (determine_query_type q) = Except.ok nres)
    (hgen : env.chat (systemPromptFor (determine_query_type q))
      (userPromptFor q
        (build_context q nres (pinecone_search env q 5 Option.none))) =
      Except.error e) :
    answer env q vb = Except.ok ("Error generating response: " ++ e) := by
  simp [answer, hgraph, generate_answer, hgen]

/-- Witness for C1 amended: instantiated at envGenFail and the query
hi. -/
theorem generation_failure_returns_error_string_witness :
    answer envGenFail "hi" false =
      Except.ok ("Error generating response: " ++ "boom") :=
  generation_failure_returns_error_string envGenFail "hi" false [] "boom"
    rfl rfl

/-- C2: when the vector retrieval step fails (embedding call or index
query errors), pinecone_search contributes the empty match list, and
answer still returns a non-empty answer generated from the graph-only
context rather than raising. -/
theorem answer_degrades_on_retrieval_failure (env : Env) (q : String)
    (vb : Bool) (nres : List Dict) (t : String)
    (hfail : retrievalFails env q 5)
    (hgraph : gatherGraph env q (determine_query_type q) = Except.ok nres)
    (hgen : env.chat (systemPromptFor (determine_query_type q))
      (userPromptFor q (build_context q nres [])) = Except.ok t)
    (hne : t ≠ "") :
    pinecone_search env q 5 Option.none = [] ∧
    answer env q vb = Except.ok t ∧ t ≠ "" := by
  have hps : pinecone_search env q 5 Option.none = [] := by
    rcases hfail with ⟨e, he⟩ | ⟨v, e, hv, he⟩
    · simp [pinecone_search, he]
    · simp [pinecone_search, hv, normFilter, he]
  refine ⟨hps, ?_, hne⟩
  simp [answer, hps, hgraph, generate_answer, hgen]

/-- Witness for C2: instantiated at envRetrFail, whose embedding
provider is down and whose graph holds one record. -/
theorem answer_degrades_on_retrieval_failure_witness :
    answer envRetrFail "hello" false = Except.ok "Graph-based answer" :=
  (answer_degrades_on_retrieval_failure envRetrFail "hello" false
    [graphRecDict okGraphRec] "Graph-based answer"
    (Or.inl ⟨"offline", rfl⟩) rfl rfl (by decide)).2.1

/-- Counterexample for C6: the claim that answer returns a structured
result with answer, ranked and facts sequences is false on the code:
even with a non-empty vector match list available, the public result of
answer is the bare generated string (here the string ANSWER), carrying
no ranked results and no facts. -/
theorem answer_returns_bare_string :
    pinecone_search envWithMatch "hi" 5 Option.none = [pineconeMatchDict m1] ∧
    answer envWithMatch "hi" false = Except.ok "ANSWER" :=
  ⟨rfl, rfl⟩

/-- C6 amended: the public surface answer(query, verbose) returns a bare
answer string, namely exactly the output of generate_answer on the
assembled context; the structured shape with ranked and facts sequences
is not produced by the pipeline. -/
theorem answer_public_result_is_generated_text (env : Env) (q : String)
    (vb : Bool) (nres : List Dict)
    (hgraph : gatherGraph env q (determine_query_type q) = Except.ok nres) :
    answer env q vb = Except.ok (generate_answer env q
      (build_context q nres (pinecone_search env q 5 Option.none))
      (determine_query_type q)) := by
  simp [answer, hgraph]

/-- Witness for C6 amended: instantiated at envWithMatch and the query
hi. -/
theorem answer_public_result_is_generated_text_witness :
    answer envWithMatch "hi" false = Except.ok (generate_answer envWithMatch
      "hi" (build_context "hi" [] (pinecone_search envWithMatch "hi" 5
        Option.none)) (determine_query_type "hi")) :=
  answer_public_result_is_generated_text envWithMatch "hi" false [] rfl

/-- Counterexample for C7: the claim that zero vector matches mean no
graph call and an empty fact list is false on the code: with the vector
retrieval failing (zero matches), the graph evidence assembled for the
same request is non-empty, because neo4j_search is keyed on the raw
query string and issued unconditionally, and its result feeds the
generated answer. -/
theorem graph_facts_nonempty_without_matches :
    pinecone_search envRetrFail "hello" 5 Option.none = [] ∧
    gatherGraph envRetrFail "hello" (determine_query_type "hello") =
      Except.ok [graphRecDict okGraphRec] ∧
    answer envRetrFail "hello" false = Except.ok "Graph-based answer" :=
  ⟨rfl, rfl, rfl⟩

/-- C7 amended: graph retrieval is keyed on the raw query string, not on
the Match ids of the vector retrieval step: the graph evidence assembled
by a request is invariant under any change to the embedding provider and
the vector index, and in particular does not depend on the ids the index
returned. -/
theorem graph_evidence_independent_of_vector_index (env env' : Env)
    (q t : String)
    (h1 : env.neo4jPrimary = env'.neo4jPrimary)
    (h2 : env.neo4jFallback = env'.neo4jFallback)
    (h3 : env.countryQuery = env'.countryQuery) :
    gatherGraph env q t = gatherGraph env' q t := by
  simp only [gatherGraph, neo4j_search, itineraryExtension,
    get_locations_by_country, h1, h2, h3]

/-- Witness for C7 amended: envBase and envWithMatch differ only in the
vector index (empty index versus one match) and assemble identical graph
evidence. -/
theorem graph_evidence_independent_of_vector_index_witness :
    gatherGraph envBase "hello" "general" =
      gatherGraph envWithMatch "hello" "general" :=
  graph_evidence_independent_of_vector_index envBase envWithMatch
    "hello" "general" rfl rfl rfl

/-- Counterexample for C8: the claim that fallback records have the same
field set as primary records, including the score field, is false on the
code: the fallback Cypher query returns no score column, so dict(record)
lacks the score key that every primary-path record carries. -/
theorem fallback_record_lacks_score :
    neo4j_search envC8 "temple" 5 = Except.ok [fallbackRecDict fb1] ∧
    dget (fallbackRecDict fb1) "score" = Option.none ∧
    dget (graphRecDict okGraphRec) "score" = some (Val.num (12/10)) :=
  ⟨rfl, rfl, rfl⟩

/-- C8 amended: when the full-text index lookup fails, neo4j_search
falls back to the broader CONTAINS pattern match rather than returning
nothing, and every fallback record has exactly the fields name,
description, type, country and rating, which are the primary-path fields
minus the score field. -/
theorem neo4j_fallback_shape (env : Env) (q : String) (l : Nat)
    (e : String) (recs : List FallbackRec)
    (hp : env.neo4jPrimary q l = Except.error e)
    (hf : env.neo4jFallback q l = Except.ok recs) :
    neo4j_search env q l = Except.ok (recs.map fallbackRecDict) ∧
    (∀ r : FallbackRec, (fallbackRecDict r).map Prod.fst =
      ["name", "description", "type", "country", "rating"]) ∧
    (∀ g : GraphRec, (graphRecDict g).map Prod.fst =
      ["name", "description", "type", "country", "rating", "score"]) := by
  refine ⟨?_, fun r => rfl, fun g => rfl⟩
  simp [neo4j_search, hp, hf, Except.map]

/-- Witness for C8 amended: instantiated at envC8, whose full-text query
fails and whose fallback returns one record. -/
theorem neo4j_fallback_shape_witness :
    neo4j_search envC8 "temple" 5 = Except.ok ([fb1].map fallbackRecDict) :=
  (neo4j_fallback_shape envC8 "temple" 5 "no such index" [fb1] rfl rfl).1

/-- Witness for C10: a failing embedding provider and an empty index
both yield the empty result list. -/
theorem pinecone_search_swallows_errors_witness :
    pinecone_search envRetrFail "q" 5 Option.none = [] ∧
    pinecone_search envBase "q" 5 Option.none = [] :=
  ⟨(pinecone_search_swallows_errors envRetrFail "q" 5 Option.none).1
      "offline" rfl,
   (pinecone_search_swallows_errors envBase "q" 5 Option.none).2.2
      [1, 0, 0] rfl rfl⟩

end HybridChat
